import Mathlib

/-!
Shallow embedding of the air-quality backend (`src/server.js`).

JavaScript numbers are modelled as rationals (`ℚ`); the process-wide random
source (`Math.random()`, one fresh value in `[0,1)` per call) is modelled by
passing the drawn values explicitly; the outbound HTTP call of the provider
adapter is modelled by an explicit `ProviderResponse` value (transport error
or a `results` list); `Date` stamps are passed in as strings.
-/

namespace AQ

/-- JavaScript `Math.round` on the (nonnegative) values used here:
round half away from zero, i.e. `⌊x + 1/2⌋`. -/
def jsRound (x : ℚ) : ℤ := ⌊x + 1/2⌋

/-- `getAQICategory` (server.js lines 32–39). -/
def getAQICategory (aqi : ℚ) : String :=
  if aqi ≤ 50 then "good"
  else if aqi ≤ 100 then "moderate"
  else if aqi ≤ 150 then "unhealthy-sensitive"
  else if aqi ≤ 200 then "unhealthy"
  else if aqi ≤ 300 then "very-unhealthy"
  else "hazardous"

/-- One row of the `thresholds` table in `getStatusFromValue`. -/
structure Thresh where
  good : ℚ
  moderate : ℚ
deriving DecidableEq, Repr

/-- The `thresholds` object literal (server.js lines 42–49); a lookup of a
key that is not present is JavaScript `undefined`, modelled as `none`. -/
def thresholds (pollutant : String) : Option Thresh :=
  if pollutant = "pm25" then some ⟨12, 35⟩
  else if pollutant = "pm10" then some ⟨54, 154⟩
  else if pollutant = "o3" then some ⟨54, 70⟩
  else if pollutant = "no2" then some ⟨53, 100⟩
  else if pollutant = "so2" then some ⟨35, 75⟩
  else if pollutant = "co" then some ⟨44/10, 94/10⟩
  else none

/-- JavaScript `value <= e` where `e` may be `undefined`: a comparison with
`undefined` is always false. -/
def leOpt (v : ℚ) : Option ℚ → Bool
  | some t => decide (v ≤ t)
  | none => false

/-- `getStatusFromValue` (server.js lines 41–54). -/
def getStatusFromValue (pollutant : String) (value : ℚ) : String :=
  if leOpt value ((thresholds pollutant).map Thresh.good) then "Good"
  else if leOpt value ((thresholds pollutant).map Thresh.moderate) then "Moderate"
  else "Unhealthy"

/-- One element pushed onto the `forecast` array by `generateForecast`. -/
structure ForecastDay where
  day : String
  aqi : ℤ
  category : String
deriving DecidableEq, Repr

/-- The `days` array of `generateForecast` (server.js line 57). -/
def days : List String := ["Today", "Tomorrow", "Wed", "Thu", "Fri", "Sat"]

/-- One iteration of the `days.forEach` body (server.js lines 63–64):
`currentAqi = Math.max(10, Math.min(400, currentAqi * 1.05 + variation))`
with `variation = (r - 0.5) * 20` for the draw `r` of `Math.random()`. -/
def forecastStep (current r : ℚ) : ℚ :=
  max 10 (min 400 (current * (105/100) + (r - 1/2) * 20))

/-- The `days.forEach` loop of `generateForecast` (server.js lines 62–71):
`draws i` is the value returned by the i-th call of `Math.random()`. -/
def forecastLoop (current : ℚ) (draws : ℕ → ℚ) : List String → ℕ → List ForecastDay
  | [], _ => []
  | d :: rest, i =>
      let next := forecastStep current (draws i)
      { day := d, aqi := jsRound next, category := getAQICategory next }
        :: forecastLoop next draws rest (i + 1)

/-- `generateForecast` (server.js lines 56–74). The `location` parameter is
kept because the source declares it (it is unused in the body). -/
def generateForecast (baseAqi : ℚ) (location : String) (draws : ℕ → ℚ) :
    List ForecastDay :=
  forecastLoop baseAqi draws days 0

/-- The running (unrounded) `currentAqi` value after `k + 1` iterations of
the loop body, when the loop starts from `base` and its first iteration
consumes the draw of index `i`. `forecastTraj base draws 0` is the sequence
of unrounded values behind the six entries of `generateForecast`. -/
def forecastTraj (base : ℚ) (draws : ℕ → ℚ) (i : ℕ) : ℕ → ℚ
  | 0 => forecastStep base (draws i)
  | k + 1 => forecastStep (forecastTraj base draws i k) (draws (i + k + 1))

/-- Severity rank of the six category labels, in the order the bands of
`getAQICategory` appear in the source. -/
def severity (c : String) : ℕ :=
  if c = "good" then 0
  else if c = "moderate" then 1
  else if c = "unhealthy-sensitive" then 2
  else if c = "unhealthy" then 3
  else if c = "very-unhealthy" then 4
  else 5

/-- `generateHealthRecommendations` (server.js lines 76–82). -/
def generateHealthRecommendations (aqi : ℚ) : List String :=
  if aqi ≤ 50 then ["Ideal air quality for outdoor activities"]
  else if aqi ≤ 100 then ["Air quality is acceptable for most people"]
  else if aqi ≤ 150 then ["Sensitive groups should reduce outdoor activities"]
  else if aqi ≤ 200 then ["Everyone may experience health effects"]
  else ["Health warnings — avoid outdoor activities"]

/-- One element of the `results` array of the provider response
(the fields `getOpenAQData` reads). -/
structure Measurement where
  parameter : String
  value : ℚ
  unit : String
  datetime : String
deriving DecidableEq, Repr

/-- The value stored under one key of a `pollutants` object. -/
structure PollutantEntry where
  value : ℚ
  unit : String
  status : String
deriving DecidableEq, Repr

/-- A `pollutants` object: insertion-ordered keyed entries, as a JavaScript
object literal used as a map. -/
abbrev PollutantMap := List (String × PollutantEntry)

/-- JavaScript `obj[k] = v` on an object used as a map: overwrite the entry
in place if the key exists, else append it. -/
def setKey (ps : PollutantMap) (k : String) (v : PollutantEntry) : PollutantMap :=
  if ps.any (fun q => q.1 = k) then
    ps.map (fun q => if q.1 = k then (k, v) else q)
  else ps ++ [(k, v)]

/-- JavaScript `obj[k]` on an object used as a map (`undefined` is `none`). -/
def getKey (ps : PollutantMap) (k : String) : Option PollutantEntry :=
  (ps.find? (fun q => q.1 = k)).map Prod.snd

/-- The `response.data.results.forEach` loop of `getOpenAQData`
(server.js lines 101–107): build the `pollutants` object. -/
def buildPollutants (results : List Measurement) : PollutantMap :=
  results.foldl
    (fun ps m =>
      setKey ps m.parameter
        ⟨m.value, m.unit, getStatusFromValue m.parameter m.value⟩)
    []

/-- `pollutants.pm25?.value || 15` (server.js line 109): the optional chain
gives `undefined` when the key is absent, and `||` replaces every falsy value
(`undefined`, and also the number `0`) by the default `15`. -/
def pm25Surrogate (ps : PollutantMap) : ℚ :=
  match getKey ps "pm25" with
  | some e => if e.value = 0 then 15 else e.value
  | none => 15

/-- `Math.min(500, Math.max(0, pm25 * 5))` (server.js line 110). -/
def calculatedAqi (ps : PollutantMap) : ℚ :=
  min 500 (max 0 (pm25Surrogate ps * 5))

/-- `location.split(',')[0].trim()` (server.js line 87). -/
def cityNameOf (location : String) : String :=
  ((location.splitOn ",").headD "").trim

/-- Outcome of the outbound `axios.get` call: `failure` covers a transport
error, a non-2xx status and a malformed body (anything that throws or has no
`results` array); `ok results` is a response carrying a `results` list. -/
inductive ProviderResponse where
  | failure
  | ok (results : List Measurement)
deriving DecidableEq, Repr

/-- The record returned by `getOpenAQData` on the non-empty path
(server.js lines 112–118), before the resolver enriches it. -/
structure ProviderData where
  aqi : ℤ
  category : String
  location : String
  pollutants : PollutantMap
  lastUpdated : String
deriving DecidableEq, Repr

/-- `getOpenAQData` (server.js lines 85–124): on a thrown error the `catch`
swallows it and the function returns `null` (`none`); on an empty `results`
list the `if` is skipped and it also returns `null`. -/
def getOpenAQData (location : String) (resp : ProviderResponse) :
    Option ProviderData :=
  match resp with
  | .failure => none
  | .ok [] => none
  | .ok (latestData :: rest) =>
      let pollutants := buildPollutants (latestData :: rest)
      some
        { aqi := jsRound (calculatedAqi pollutants)
          category := getAQICategory (calculatedAqi pollutants)
          location := cityNameOf location
          pollutants := pollutants
          lastUpdated := latestData.datetime }

/-- A value of the `cityData` table (server.js lines 24–29). -/
structure FallbackEntry where
  aqi : ℚ
  category : String
  pollutants : PollutantMap
deriving DecidableEq, Repr

/-- The `'New York, NY'` record of `cityData` (server.js line 25). -/
def nyEntry : FallbackEntry :=
  ⟨78, "moderate", [("pm25", ⟨123/10, "µg/m³", "Good"⟩)]⟩

/-- The `cityData` object (server.js lines 24–29), as a lookup. -/
def cityData (location : String) : Option FallbackEntry :=
  if location = "New York, NY" then some nyEntry
  else if location = "Delhi, India" then
    some ⟨245, "very-unhealthy", [("pm25", ⟨456/10, "µg/m³", "Very Unhealthy"⟩)]⟩
  else if location = "London, UK" then
    some ⟨55, "moderate", [("pm25", ⟨112/10, "µg/m³", "Good"⟩)]⟩
  else none

/-- The record `getAirQualityData` resolves to on either path. -/
structure Reading where
  aqi : ℤ
  category : String
  location : String
  pollutants : PollutantMap
  forecast : List ForecastDay
  healthRecommendations : List String
  lastUpdated : String
deriving DecidableEq, Repr

/-- `getAirQualityData` (server.js lines 127–148). `resp` is the outcome of
the provider call, `forecastDraws` the `Math.random()` values consumed by
`generateForecast`, `r` the one consumed for the fallback `variation`
(line 136), and `now` stands for `new Date().toISOString()`. -/
def getAirQualityData (location : String) (resp : ProviderResponse)
    (forecastDraws : ℕ → ℚ) (r : ℚ) (now : String) : Reading :=
  match getOpenAQData location resp with
  | some d =>
      { aqi := d.aqi
        category := d.category
        location := d.location
        pollutants := d.pollutants
        forecast := generateForecast (d.aqi : ℚ) location forecastDraws
        healthRecommendations := generateHealthRecommendations (d.aqi : ℚ)
        lastUpdated := d.lastUpdated }
  | none =>
      let fallback := (cityData location).getD nyEntry
      let variation := (r - 1/2) * 10
      let currentAqi := max 0 (fallback.aqi + variation)
      { aqi := jsRound currentAqi
        category := getAQICategory currentAqi
        location := location
        pollutants := fallback.pollutants
        forecast := generateForecast currentAqi location forecastDraws
        healthRecommendations := generateHealthRecommendations currentAqi
        lastUpdated := now }

/-- The `/api/health` route handler (server.js lines 167–170):
`parseInt(req.query.aqi) || 50`. `none` models a missing or non-numeric
parameter (`parseInt` gives `NaN`, which is falsy); a parsed `0` is also
falsy, so both fall back to `50`. -/
def healthEndpoint (aqiParam : Option ℤ) : List String :=
  let aqi : ℚ :=
    match aqiParam with
    | none => 50
    | some n => if n = 0 then 50 else (n : ℚ)
  generateHealthRecommendations aqi

/-! ## Helper lemmas -/

theorem generateHealthRecommendations_length (aqi : ℚ) :
    (generateHealthRecommendations aqi).length = 1 := by
  unfold generateHealthRecommendations
  split_ifs <;> rfl

theorem getAQICategory_mem_bands (i : ℚ) :
    getAQICategory i ∈ ["good", "moderate", "unhealthy-sensitive",
      "unhealthy", "very-unhealthy", "hazardous"] := by
  unfold getAQICategory
  split_ifs <;> simp

theorem forecastStep_bounds (c r : ℚ) :
    10 ≤ forecastStep c r ∧ forecastStep c r ≤ 400 :=
  ⟨le_max_left _ _, max_le (by norm_num) (min_le_left _ _)⟩

theorem forecastTraj_bounds (base : ℚ) (draws : ℕ → ℚ) (i k : ℕ) :
    10 ≤ forecastTraj base draws i k ∧ forecastTraj base draws i k ≤ 400 := by
  cases k with
  | zero => exact forecastStep_bounds _ _
  | succ k => exact forecastStep_bounds _ _

theorem forecastLoop_length (draws : ℕ → ℚ) :
    ∀ (l : List String) (c : ℚ) (i : ℕ),
      (forecastLoop c draws l i).length = l.length := by
  intro l
  induction l with
  | nil => intro c i; rfl
  | cons d rest ih => intro c i; simp [forecastLoop, ih]

theorem forecastLoop_map_day (draws : ℕ → ℚ) :
    ∀ (l : List String) (c : ℚ) (i : ℕ),
      (forecastLoop c draws l i).map ForecastDay.day = l := by
  intro l
  induction l with
  | nil => intro c i; rfl
  | cons d rest ih => intro c i; simp [forecastLoop, ih]

theorem forecastLoop_mem (draws : ℕ → ℚ) :
    ∀ (l : List String) (c : ℚ) (i : ℕ), ∀ e ∈ forecastLoop c draws l i,
      ∃ x : ℚ, e.aqi = jsRound x ∧ e.category = getAQICategory x := by
  intro l
  induction l with
  | nil => intro c i e he; simp [forecastLoop] at he
  | cons d rest ih =>
      intro c i e he
      rw [forecastLoop, List.mem_cons] at he
      rcases he with h | h
      · exact ⟨forecastStep c (draws i), by simp [h]⟩
      · exact ih _ _ e h

theorem forecastTraj_shift (draws : ℕ → ℚ) :
    ∀ (k : ℕ) (c : ℚ) (i : ℕ),
      forecastTraj (forecastStep c (draws i)) draws (i + 1) k
        = forecastTraj c draws i (k + 1) := by
  intro k
  induction k with
  | zero => intro c i; rfl
  | succ k ih =>
      intro c i
      show forecastStep (forecastTraj (forecastStep c (draws i)) draws (i + 1) k)
          (draws (i + 1 + k + 1))
        = forecastStep (forecastTraj c draws i (k + 1)) (draws (i + (k + 1) + 1))
      rw [ih, show i + 1 + k + 1 = i + (k + 1) + 1 by omega]

theorem forecastLoop_getElem (draws : ℕ → ℚ) :
    ∀ (l : List String) (c : ℚ) (i k : ℕ),
      (forecastLoop c draws l i)[k]? =
        (l[k]?).map fun d =>
          ⟨d, jsRound (forecastTraj c draws i k),
            getAQICategory (forecastTraj c draws i k)⟩ := by
  intro l
  induction l with
  | nil => intro c i k; simp [forecastLoop]
  | cons d rest ih =>
      intro c i k
      cases k with
      | zero => simp [forecastLoop, forecastTraj]
      | succ k =>
          rw [show forecastLoop c draws (d :: rest) i
              = ⟨d, jsRound (forecastStep c (draws i)),
                  getAQICategory (forecastStep c (draws i))⟩
                :: forecastLoop (forecastStep c (draws i)) draws rest (i + 1)
            from rfl]
          rw [List.getElem?_cons_succ, ih, forecastTraj_shift,
            List.getElem?_cons_succ]

/-! ## Claim theorems -/

/-- Claim C5: for every numeric index `i`, `getAQICategory i` is `"good"` if
`i ≤ 50`, `"moderate"` if `50 < i ≤ 100`, `"unhealthy-sensitive"` if
`100 < i ≤ 150`, `"unhealthy"` if `150 < i ≤ 200`, `"very-unhealthy"` if
`200 < i ≤ 300`, and `"hazardous"` otherwise; the function is pure and total
(it is a total function on all of `ℚ`). -/
theorem getAQICategory_bands (i : ℚ) :
    (i ≤ 50 → getAQICategory i = "good") ∧
    (50 < i → i ≤ 100 → getAQICategory i = "moderate") ∧
    (100 < i → i ≤ 150 → getAQICategory i = "unhealthy-sensitive") ∧
    (150 < i → i ≤ 200 → getAQICategory i = "unhealthy") ∧
    (200 < i → i ≤ 300 → getAQICategory i = "very-unhealthy") ∧
    (300 < i → getAQICategory i = "hazardous") := by
  unfold getAQICategory
  refine ⟨fun h1 => ?_, fun h1 h2 => ?_, fun h1 h2 => ?_, fun h1 h2 => ?_,
    fun h1 h2 => ?_, fun h1 => ?_⟩ <;>
    split_ifs <;> first | rfl | linarith

/-- Witness for C5: the six bands of `getAQICategory` realized at concrete
indices. -/
theorem getAQICategory_bands_witness :
    getAQICategory 40 = "good" ∧ getAQICategory 75 = "moderate" ∧
    getAQICategory 120 = "unhealthy-sensitive" ∧
    getAQICategory 180 = "unhealthy" ∧
    getAQICategory 250 = "very-unhealthy" ∧
    getAQICategory 400 = "hazardous" :=
  ⟨(getAQICategory_bands 40).1 (by norm_num),
    (getAQICategory_bands 75).2.1 (by norm_num) (by norm_num),
    (getAQICategory_bands 120).2.2.1 (by norm_num) (by norm_num),
    (getAQICategory_bands 180).2.2.2.1 (by norm_num) (by norm_num),
    (getAQICategory_bands 250).2.2.2.2.1 (by norm_num) (by norm_num),
    (getAQICategory_bands 400).2.2.2.2.2 (by norm_num)⟩

/-- Claim C6: for all indices `0 ≤ i ≤ j ≤ 500`, the severity of
`getAQICategory i` is at most the severity of `getAQICategory j` under the
ordering good < moderate < unhealthy-sensitive < unhealthy < very-unhealthy
< hazardous, and every result lies in the six-element band set. -/
theorem getAQICategory_monotone (i j : ℚ) (h0 : 0 ≤ i) (hij : i ≤ j)
    (hj : j ≤ 500) :
    severity (getAQICategory i) ≤ severity (getAQICategory j) ∧
    getAQICategory i ∈ ["good", "moderate", "unhealthy-sensitive",
      "unhealthy", "very-unhealthy", "hazardous"] ∧
    getAQICategory j ∈ ["good", "moderate", "unhealthy-sensitive",
      "unhealthy", "very-unhealthy", "hazardous"] := by
  refine ⟨?_, getAQICategory_mem_bands i, getAQICategory_mem_bands j⟩
  unfold getAQICategory
  split_ifs <;> first | decide | linarith

/-- Witness for C6: monotone severity at the concrete pair `(0, 500)`. -/
theorem getAQICategory_monotone_witness :
    severity (getAQICategory 0) ≤ severity (getAQICategory 500) ∧
    getAQICategory 0 ∈ ["good", "moderate", "unhealthy-sensitive",
      "unhealthy", "very-unhealthy", "hazardous"] ∧
    getAQICategory 500 ∈ ["good", "moderate", "unhealthy-sensitive",
      "unhealthy", "very-unhealthy", "hazardous"] :=
  getAQICategory_monotone 0 500 (by norm_num) (by norm_num) (by norm_num)

/-- Claim C8: the `/api/health` route returns, for `aqi = 250`, the
single-string recommendation list of the `> 200` band of
`generateHealthRecommendations`, and with the parameter missing it returns
exactly the same response as `aqi = 50`. -/
theorem healthEndpoint_bands (q : ℚ) (hq : 200 < q) :
    healthEndpoint (some 250)
      = ["Health warnings — avoid outdoor activities"] ∧
    generateHealthRecommendations q
      = ["Health warnings — avoid outdoor activities"] ∧
    healthEndpoint none = healthEndpoint (some 50) := by
  refine ⟨by with_unfolding_all decide, ?_, by with_unfolding_all decide⟩
  unfold generateHealthRecommendations
  split_ifs <;> first | rfl | linarith

/-- Witness for C8: the `> 200` band realized at `q = 250`. -/
theorem healthEndpoint_bands_witness :
    healthEndpoint (some 250)
      = ["Health warnings — avoid outdoor activities"] ∧
    generateHealthRecommendations 250
      = ["Health warnings — avoid outdoor activities"] ∧
    healthEndpoint none = healthEndpoint (some 50) :=
  healthEndpoint_bands 250 (by norm_num)

/-- Claim C9: `generateForecast` does not depend on its `location` argument:
with the same seed and the same random draws, any two location strings give
identical forecast sequences. -/
theorem generateForecast_ignores_location (baseAqi : ℚ) (draws : ℕ → ℚ)
    (loc1 loc2 : String) :
    generateForecast baseAqi loc1 draws = generateForecast baseAqi loc2 draws :=
  rfl

/-- Claim C10: for every pollutant name outside
`{pm25, pm10, o3, no2, so2, co}` and every numeric value, both threshold
lookups are `undefined`, both `value <= undefined` comparisons are false, and
`getStatusFromValue` totally returns `"Unhealthy"`. -/
theorem getStatusFromValue_unknown_total (p : String) (v : ℚ)
    (h : p ∉ (["pm25", "pm10", "o3", "no2", "so2", "co"] : List String)) :
    thresholds p = none ∧
    leOpt v ((thresholds p).map Thresh.good) = false ∧
    leOpt v ((thresholds p).map Thresh.moderate) = false ∧
    getStatusFromValue p v = "Unhealthy" := by
  simp only [List.mem_cons, List.not_mem_nil, or_false, not_or] at h
  obtain ⟨n1, n2, n3, n4, n5, n6⟩ := h
  have ht : thresholds p = none := by
    unfold thresholds
    split_ifs <;> first | rfl | simp_all
  refine ⟨ht, ?_, ?_, ?_⟩ <;> simp [getStatusFromValue, ht, leOpt]

/-- Witness for C10: the unrecognized pollutant name `"nh3"` with value `7`. -/
theorem getStatusFromValue_unknown_total_witness :
    thresholds "nh3" = none ∧
    leOpt 7 ((thresholds "nh3").map Thresh.good) = false ∧
    leOpt 7 ((thresholds "nh3").map Thresh.moderate) = false ∧
    getStatusFromValue "nh3" 7 = "Unhealthy" :=
  getStatusFromValue_unknown_total "nh3" 7 (by with_unfolding_all decide)

/-- Claim C4: for every seed and every sequence of random draws (in `[0,1)`),
`generateForecast` returns exactly 6 entries, labelled
`[Today, Tomorrow, Wed, Thu, Fri, Sat]` in that order; entry `k` reports the
rounding `⌊x + 1/2⌋` of the running value `forecastTraj baseAqi draws 0 k`,
which evolves by `next = clamp(current * 1.05 + noise, 10, 400)` with
`noise = (draw - 0.5) * 20 ∈ [-10, 10]`, so every running value stays in
`[10, 400]`. -/
theorem generateForecast_spec (baseAqi : ℚ) (location : String)
    (draws : ℕ → ℚ) (hdraws : ∀ n, 0 ≤ draws n ∧ draws n < 1) :
    (generateForecast baseAqi location draws).length = 6 ∧
    (generateForecast baseAqi location draws).map ForecastDay.day
      = ["Today", "Tomorrow", "Wed", "Thu", "Fri", "Sat"] ∧
    (∀ k, (generateForecast baseAqi location draws)[k]? =
      (["Today", "Tomorrow", "Wed", "Thu", "Fri", "Sat"][k]?).map fun d =>
        (⟨d, jsRound (forecastTraj baseAqi draws 0 k),
          getAQICategory (forecastTraj baseAqi draws 0 k)⟩ : ForecastDay)) ∧
    forecastTraj baseAqi draws 0 0
      = max 10 (min 400 (baseAqi * (105/100) + (draws 0 - 1/2) * 20)) ∧
    (∀ k, forecastTraj baseAqi draws 0 (k + 1)
      = max 10 (min 400 (forecastTraj baseAqi draws 0 k * (105/100)
          + (draws (k + 1) - 1/2) * 20))) ∧
    (∀ k, 10 ≤ forecastTraj baseAqi draws 0 k
      ∧ forecastTraj baseAqi draws 0 k ≤ 400) ∧
    (∀ n, -10 ≤ (draws n - 1/2) * 20 ∧ (draws n - 1/2) * 20 ≤ 10) := by
  refine ⟨forecastLoop_length draws days baseAqi 0,
    forecastLoop_map_day draws days baseAqi 0,
    fun k => ?_,
    rfl, fun k => ?_, fun k => forecastTraj_bounds baseAqi draws 0 k,
    fun n => ?_⟩
  · exact forecastLoop_getElem draws days baseAqi 0 k
  · show forecastStep (forecastTraj baseAqi draws 0 k) (draws (0 + k + 1)) = _
    rw [show 0 + k + 1 = k + 1 by omega]
    rfl
  · have h := hdraws n
    constructor <;> nlinarith [h.1, h.2]

/-- Witness for C4: the constant draw `1/2` (zero noise) from seed `48`. -/
theorem generateForecast_spec_witness :
    (generateForecast 48 "New York, NY" (fun _ => 1/2)).length = 6 ∧
    (generateForecast 48 "New York, NY" (fun _ => 1/2)).map ForecastDay.day
      = ["Today", "Tomorrow", "Wed", "Thu", "Fri", "Sat"] :=
  have h := generateForecast_spec 48 "New York, NY" (fun _ => 1/2)
    (fun _ => ⟨by norm_num, by norm_num⟩)
  ⟨h.1, h.2.1⟩

/-- Counterexample for C2: the stored category is computed from the
unrounded running value, not from the rounded reported index, and the two
can straddle a band boundary. With seed 48 and first draw 0.49 the first
forecast entry has unrounded value 50.2, reported `aqi = 50` but category
`"moderate"`, while `getAQICategory 50 = "good"`; the fallback Reading for
London with draw 0.02 has unrounded value 50.2, reported `aqi = 50`,
category `"moderate"` likewise. -/
theorem category_of_rounded_cex :
    (∃ e ∈ generateForecast 48 "New York, NY" (fun _ => 49/100),
      e.category ≠ getAQICategory (e.aqi : ℚ)) ∧
    (getAirQualityData "London, UK" ProviderResponse.failure
        (fun _ => 1/2) (2/100) "t").category
      ≠ getAQICategory
          (((getAirQualityData "London, UK" ProviderResponse.failure
              (fun _ => 1/2) (2/100) "t").aqi : ℤ) : ℚ) := by
  with_unfolding_all decide

/-- Claim C2 amended: in every Reading produced by the resolver and every
ForecastDay produced by the forecast generator, the stored category equals
`getAQICategory` applied to the exact unrounded value from which the stored
index was rounded (there is a common `x` with `aqi = jsRound x` and
`category = getAQICategory x`); it is not in general `getAQICategory` of the
rounded reported index. -/
theorem reading_category_from_unrounded (location : String)
    (resp : ProviderResponse) (draws : ℕ → ℚ) (r : ℚ) (now : String) :
    (∃ x : ℚ,
      (getAirQualityData location resp draws r now).aqi = jsRound x ∧
      (getAirQualityData location resp draws r now).category
        = getAQICategory x) ∧
    ∀ e ∈ (getAirQualityData location resp draws r now).forecast,
      ∃ x : ℚ, e.aqi = jsRound x ∧ e.category = getAQICategory x := by
  unfold getAirQualityData
  cases hp : getOpenAQData location resp with
  | none =>
      exact ⟨⟨max 0 (((cityData location).getD nyEntry).aqi + (r - 1/2) * 10),
          rfl, rfl⟩,
        fun e he => forecastLoop_mem draws days _ 0 e he⟩
  | some d =>
      refine ⟨?_, fun e he => forecastLoop_mem draws days _ 0 e he⟩
      cases resp with
      | failure => simp [getOpenAQData] at hp
      | ok results =>
          cases results with
          | nil => simp [getOpenAQData] at hp
          | cons m ms =>
              refine ⟨calculatedAqi (buildPollutants (m :: ms)), ?_, ?_⟩ <;>
                simp [getOpenAQData] at hp <;> simp [← hp]

/-- Witness for the amended C2: the first forecast entry of the fallback
Reading for New York with zero perturbation and zero-noise draws. -/
theorem reading_category_from_unrounded_witness :
    ∃ x : ℚ, (⟨"Today", 82, "moderate"⟩ : ForecastDay).aqi = jsRound x ∧
      (⟨"Today", 82, "moderate"⟩ : ForecastDay).category = getAQICategory x :=
  (reading_category_from_unrounded "New York, NY" ProviderResponse.failure
      (fun _ => 1/2) (1/2) "t").2
    ⟨"Today", 82, "moderate"⟩ (by with_unfolding_all decide)

/-- Claim C1: whenever the provider adapter yields no data (`none`: transport
error, empty result list, or malformed response), the resolver takes the
fallback path and still returns a complete Reading — a total result with a
6-entry forecast and a recommendation list. `getOpenAQData` maps both a
thrown error and an empty result list to `none`. -/
theorem resolver_never_raises (location : String) (resp : ProviderResponse)
    (draws : ℕ → ℚ) (r : ℚ) (now : String)
    (h : getOpenAQData location resp = none) :
    getOpenAQData location ProviderResponse.failure = none ∧
    getOpenAQData location (ProviderResponse.ok []) = none ∧
    getAirQualityData location resp draws r now =
      (let fallback := (cityData location).getD nyEntry
       let currentAqi := max 0 (fallback.aqi + (r - 1/2) * 10)
       { aqi := jsRound currentAqi
         category := getAQICategory currentAqi
         location := location
         pollutants := fallback.pollutants
         forecast := generateForecast currentAqi location draws
         healthRecommendations := generateHealthRecommendations currentAqi
         lastUpdated := now }) ∧
    (getAirQualityData location resp draws r now).forecast.length = 6 ∧
    (getAirQualityData location resp draws r now).healthRecommendations.length
      = 1 := by
  have h3 : getAirQualityData location resp draws r now =
      (let fallback := (cityData location).getD nyEntry
       let currentAqi := max 0 (fallback.aqi + (r - 1/2) * 10)
       { aqi := jsRound currentAqi
         category := getAQICategory currentAqi
         location := location
         pollutants := fallback.pollutants
         forecast := generateForecast currentAqi location draws
         healthRecommendations := generateHealthRecommendations currentAqi
         lastUpdated := now }) := by
    unfold getAirQualityData
    rw [h]
  refine ⟨rfl, rfl, h3, ?_, ?_⟩ <;> rw [h3]
  · exact forecastLoop_length draws days _ 0
  · exact generateHealthRecommendations_length _

/-- Witness for C1: an unknown location with a failing provider still gets a
fully populated Reading. -/
theorem resolver_never_raises_witness :
    (getAirQualityData "Nowhere, XX" ProviderResponse.failure
        (fun _ => 1/2) (1/2) "t").forecast.length = 6 ∧
    (getAirQualityData "Nowhere, XX" ProviderResponse.failure
        (fun _ => 1/2) (1/2) "t").healthRecommendations.length = 1 :=
  have h := resolver_never_raises "Nowhere, XX" ProviderResponse.failure
    (fun _ => 1/2) (1/2) "t" rfl
  ⟨h.2.2.2.1, h.2.2.2.2⟩

/-- Counterexample for C3: a provider result containing a pm25 reading of
value `0`. The reading is present, so the claim demands
`clamp(0 * 5, 0, 500) = 0`, but the adapter's `|| 15` treats the value `0`
as falsy and produces the surrogate index `75`. -/
theorem adapter_pm25_zero_cex :
    (getOpenAQData "Paris, FR"
        (ProviderResponse.ok [⟨"pm25", 0, "µg/m³", "2024-01-01"⟩])).map
      ProviderData.aqi = some 75 ∧
    getKey (buildPollutants [⟨"pm25", 0, "µg/m³", "2024-01-01"⟩]) "pm25"
      = some ⟨0, "µg/m³", "Good"⟩ ∧
    min 500 (max 0 ((0 : ℚ) * 5)) = 0 ∧ (75 : ℤ) ≠ 0 := by
  with_unfolding_all decide

/-- Claim C3 amended: for every non-empty provider result, the adapter's
synthetic (unrounded) index equals `clamp(v * 5, 0, 500)` whenever the
built pollutant map's pm25 entry has a nonzero value `v`, and equals
`clamp(15 * 5) = 75` when no pm25 reading is present or its value is `0`
(the surrogate 15 is substituted for every falsy pm25 value); the returned
record reports the rounding of that index and its band. -/
theorem adapter_synthetic_index (location : String) (m : Measurement)
    (ms : List Measurement) :
    (∃ d, getOpenAQData location (ProviderResponse.ok (m :: ms)) = some d ∧
      d.aqi = jsRound (calculatedAqi (buildPollutants (m :: ms))) ∧
      d.category = getAQICategory (calculatedAqi (buildPollutants (m :: ms))) ∧
      d.lastUpdated = m.datetime) ∧
    calculatedAqi (buildPollutants (m :: ms)) =
      match getKey (buildPollutants (m :: ms)) "pm25" with
      | some e => if e.value = 0 then 75 else min 500 (max 0 (e.value * 5))
      | none => 75 := by
  refine ⟨⟨_, rfl, rfl, rfl, rfl⟩, ?_⟩
  unfold calculatedAqi pm25Surrogate
  cases getKey (buildPollutants (m :: ms)) "pm25" with
  | none => norm_num
  | some e =>
      by_cases hv : e.value = 0
      · simp only [hv, if_pos rfl, if_true]
        norm_num
      · simp [hv]

/-- The fallback category for the default New York entry: every perturbed
index `78 + (r - 0.5) * 10` with `r ∈ [0, 1)` stays inside the moderate
band. -/
theorem fallback_ny_category_moderate (r : ℚ) (h : 0 ≤ r) (h' : r < 1) :
    getAQICategory (max 0 ((78 : ℚ) + (r - 1/2) * 10)) = "moderate" := by
  have hx : max 0 ((78 : ℚ) + (r - 1/2) * 10) = 78 + (r - 1/2) * 10 :=
    max_eq_right (by linarith)
  rw [hx]
  unfold getAQICategory
  split_ifs <;> first | rfl | linarith

/-- Claim C7: the fallback store is an exact-string-match lookup with the
"New York, NY" record as the default; resolving the unknown
"Unknown City, ZZ" uses the same baseline entry as resolving "New York, NY"
(same base index 78, same pollutants, same resulting category "moderate"),
the two results differing only by independent perturbations bounded by ±5
applied before clamping at 0. -/
theorem unknown_location_uses_default (draws1 draws2 : ℕ → ℚ) (r1 r2 : ℚ)
    (now1 now2 : String) (h1 : 0 ≤ r1) (h1' : r1 < 1) (h2 : 0 ≤ r2)
    (h2' : r2 < 1) :
    cityData "Unknown City, ZZ" = none ∧
    cityData "New York, NY" = some nyEntry ∧
    (getAirQualityData "Unknown City, ZZ" ProviderResponse.failure
        draws1 r1 now1).pollutants
      = (getAirQualityData "New York, NY" ProviderResponse.failure
          draws2 r2 now2).pollutants ∧
    (getAirQualityData "Unknown City, ZZ" ProviderResponse.failure
        draws1 r1 now1).aqi
      = jsRound (max 0 (nyEntry.aqi + (r1 - 1/2) * 10)) ∧
    (getAirQualityData "New York, NY" ProviderResponse.failure
        draws2 r2 now2).aqi
      = jsRound (max 0 (nyEntry.aqi + (r2 - 1/2) * 10)) ∧
    (getAirQualityData "Unknown City, ZZ" ProviderResponse.failure
        draws1 r1 now1).category = "moderate" ∧
    (getAirQualityData "New York, NY" ProviderResponse.failure
        draws2 r2 now2).category = "moderate" ∧
    |(r1 - 1/2) * 10| ≤ 5 ∧ |(r2 - 1/2) * 10| ≤ 5 := by
  refine ⟨rfl, rfl, rfl, rfl, rfl, ?_, ?_, ?_, ?_⟩
  · exact fallback_ny_category_moderate r1 h1 h1'
  · exact fallback_ny_category_moderate r2 h2 h2'
  · exact abs_le.mpr ⟨by linarith, by linarith⟩
  · exact abs_le.mpr ⟨by linarith, by linarith⟩

/-- Witness for C7: zero-perturbation draws on both sides. -/
theorem unknown_location_uses_default_witness :
    (getAirQualityData "Unknown City, ZZ" ProviderResponse.failure
        (fun _ => 1/2) (1/2) "t").category = "moderate" ∧
    (getAirQualityData "Unknown City, ZZ" ProviderResponse.failure
        (fun _ => 1/2) (1/2) "t").pollutants
      = (getAirQualityData "New York, NY" ProviderResponse.failure
          (fun _ => 1/2) (1/2) "t").pollutants :=
  have h := unknown_location_uses_default (fun _ => 1/2) (fun _ => 1/2)
    (1/2) (1/2) "t" "t" (by norm_num) (by norm_num) (by norm_num) (by norm_num)
  ⟨h.2.2.2.2.2.1, h.2.2.1⟩

end AQ
